import Mathlib

/-!
Verification of the currency-exchange forecasting pipeline.

The repository consists of two near-identical files, `app.py` and
`backend.py`, each containing a function `get_prediction(ticker, travel_date)`
that fetches five years of daily closing rates, validates and cleans them,
fits a Prophet model, projects it to the travel date, and returns the top
three predicted days inside the window `(today, travel_date]`.

This file is a shallow embedding of that pipeline:

* dates are modelled at day granularity as `Nat` (matching the source, which
  normalizes every timestamp to a day boundary before comparing);
* closing rates and predicted rates are modelled as `ℚ` (the source works
  with real-valued floats; no rounding happens inside the pipeline);
* the fetched dataframe is a list of rows, each with a date and an optional
  closing rate (`none` models a NaN `Close` cell), plus a flag recording
  whether a `Close` column is present at all;
* the Prophet model fit is external numerical code; it is abstracted as a
  parameter `fit : List FPoint → Except String (Nat → ℚ)` returning either
  the fitted prediction function `yhat` (deterministic once fitted) or the
  message of a raised exception.  The date grid that Prophet's
  `make_future_dataframe(periods)` produces (with the default daily
  frequency and `include_history=True`) is modelled concretely, since the
  pipeline's output window depends on it: the sorted, deduplicated
  historical dates followed by one date per day after the last historical
  date for `periods` days;
* Python's `try/except` wrapper is modelled by the embedding being a total
  function into the return type: every internal fault surfaces as the
  failure variant carrying `"An unexpected error occurred: " ++ cause`.

The return value of `get_prediction` is the source's 3-tuple
`(best_days, forecast-or-message, model)`, where failures are signalled by
`best_days = None` and `model = None` with the diagnostic message in the
middle slot.
-/

/-- One row of the fetched market-data frame: an observation date (day
number) and the closing rate, `none` modelling a missing (NaN) `Close`. -/
structure FetchRow where
  date : Nat
  close : Option ℚ
deriving DecidableEq

/-- The dataframe returned by `yf.download`: whether a `Close` column is
present, and the rows. -/
structure FetchedData where
  hasClose : Bool
  rows : List FetchRow
deriving DecidableEq

/-- A `(ds, yhat)` pair: a date together with its (predicted) rate.  Used
both for the cleaned historical series and for forecast points. -/
abbrev FPoint := Nat × ℚ

/-- The value returned by `get_prediction`: the tuple
`(best_days, forecast, model)` on success and `(None, message, None)` on
failure.  `second` holds the full forecast (`Sum.inl`) or the diagnostic
message (`Sum.inr`). -/
structure PredReturn where
  best_days : Option (List FPoint)
  second : Sum (List FPoint) String
  model : Option (Nat → ℚ)

/-- The first validation gate of `get_prediction`:
`data.empty or (not ('Close' in data.columns)) or data['Close'].isnull().all()`. -/
def no_valid_data (data : FetchedData) : Bool :=
  data.rows.isEmpty || !data.hasClose || data.rows.all (fun r => r.close.isNone)

/-- `dropna()` on the `[['Date', 'Close']]` projection: keep the rows whose
closing rate is present. -/
def dropna (rows : List FetchRow) : List FPoint :=
  rows.filterMap (fun r => r.close.map (fun y => (r.date, y)))

/-- `drop_duplicates(subset=['ds'])` with pandas' default `keep='first'`:
keep a row iff its date has not been seen in an earlier row. -/
def drop_duplicates_ds (seen : List Nat) : List FPoint → List FPoint
  | [] => []
  | p :: rest =>
    if p.1 ∈ seen then drop_duplicates_ds seen rest
    else p :: drop_duplicates_ds (p.1 :: seen) rest

/-- The cleaning expression of the source:
`data.reset_index()[['Date','Close']].rename(...).dropna().drop_duplicates(subset=['ds'])`,
producing the dataframe `df_prophet` handed to the model. -/
def clean_series (rows : List FetchRow) : List FPoint :=
  drop_duplicates_ds [] (dropna rows)

/-- `future_forecast.sort_values(by='yhat', ascending=False)`: the windowed
forecast points ordered by predicted rate, highest first.  (The source's
default pandas sort does not specify the relative order of rows with
exactly equal `yhat`; this model fixes a stable order, which matters to
none of the properties proved about it below.) -/
def sort_values_yhat_desc (l : List FPoint) : List FPoint :=
  List.insertionSort (fun a b => b.2 ≤ a.2) l

/-- Prophet's `history_dates`: the distinct `ds` values of the fitted
dataframe, sorted ascending. -/
def history_dates (ds : List Nat) : List Nat :=
  List.insertionSort (fun a b => a ≤ b) ds.dedup

/-- The largest historical date, `history_dates.max()`. -/
def hist_last (ds : List Nat) : Nat :=
  (history_dates ds).foldl max 0

/-- The `ds` column of `model.make_future_dataframe(periods)` with the
default daily frequency and `include_history=True`: the historical dates
(distinct, ascending) followed by one date per day after the last
historical date, for `max periods 0` days.  (`pd.date_range(start=last,
periods=periods+1)` filtered to dates strictly after `last`.) -/
def future_ds (ds : List Nat) (periods : Int) : List Nat :=
  history_dates ds ++
    (List.range periods.toNat).map (fun i => hist_last ds + 1 + i)

/-- `model.make_future_dataframe(periods=days_to_forecast)`: raises a
`ValueError` from `pd.date_range` when `periods + 1` is negative, and
otherwise returns the date grid `future_ds`. -/
def make_future_dataframe (ds : List Nat) (periods : Int) : Except String (List Nat) :=
  if periods + 1 < 0 then
    Except.error ("Number of samples, " ++ toString (periods + 1) ++ ", must be non-negative.")
  else
    Except.ok (future_ds ds periods)

/-- The model-fitting-and-selection half of `get_prediction` (source lines
52–67 of `app.py`, 33–51 of `backend.py`): fit the model on `df_prophet`,
build the future dataframe for `days_to_forecast = travel_date - today`
days, predict, restrict to the window `(today, travel_date]`, and return
the three dates with the highest predicted rate.  A fitting or dataframe
error is caught by the surrounding `except` and reported as an unexpected
error. -/
def modelStage (fit : List FPoint → Except String (Nat → ℚ)) (today : Nat)
    (df_prophet : List FPoint) (travel_date : Nat) : PredReturn :=
  match fit df_prophet with
  | Except.error e => ⟨none, Sum.inr ("An unexpected error occurred: " ++ e), none⟩
  | Except.ok yhat =>
    match make_future_dataframe (df_prophet.map Prod.fst)
        ((travel_date : Int) - (today : Int)) with
    | Except.error e => ⟨none, Sum.inr ("An unexpected error occurred: " ++ e), none⟩
    | Except.ok future =>
      let forecast : List FPoint := future.map (fun d => (d, yhat d))
      let future_forecast :=
        forecast.filter (fun p => decide (today < p.1) && decide (p.1 ≤ travel_date))
      if future_forecast.isEmpty then
        ⟨none, Sum.inr "Could not generate a forecast for the selected period.", none⟩
      else
        ⟨some ((sort_values_yhat_desc future_forecast).take 3), Sum.inl forecast, some yhat⟩

/-- `get_prediction(ticker, travel_date)`, common to `app.py` and
`backend.py`, which differ only in the wording of the insufficient-history
message (`insufficient_msg`).  The fetched data and the current day stand
in for the `yf.download` call and `datetime.now()`. -/
def get_prediction_core (insufficient_msg : String)
    (fit : List FPoint → Except String (Nat → ℚ))
    (today : Nat) (data : FetchedData) (travel_date : Nat) : PredReturn :=
  if no_valid_data data then
    ⟨none, Sum.inr "Could not find valid data for this currency pair.", none⟩
  else
    let df_prophet := clean_series data.rows
    if df_prophet.length < 30 then
      ⟨none, Sum.inr insufficient_msg, none⟩
    else
      modelStage fit today df_prophet travel_date

/-- The insufficient-history message of `app.py` (line 50). -/
def app_insufficient_msg : String :=
  "Not enough historical data available for a forecast."

/-- The insufficient-history message of `backend.py` (line 31). -/
def backend_insufficient_msg : String :=
  "Not enough historical data available to make a reliable forecast."

/-- `get_prediction` as defined in `app.py`. -/
def app_get_prediction : (List FPoint → Except String (Nat → ℚ)) →
    Nat → FetchedData → Nat → PredReturn :=
  get_prediction_core app_insufficient_msg

/-- `get_prediction` as defined in `backend.py`. -/
def backend_get_prediction : (List FPoint → Except String (Nat → ℚ)) →
    Nat → FetchedData → Nat → PredReturn :=
  get_prediction_core backend_insufficient_msg

/-- A fetched frame of `n` daily rows, dates `0, …, n-1`, all with closing
rate `1`.  Used as concrete input data in the witnesses below. -/
def rows_n (n : Nat) : List FetchRow :=
  (List.range n).map (fun i => ⟨i, some 1⟩)

/-- Thirty valid daily rows: passes both validation gates. -/
def data30 : FetchedData := ⟨true, rows_n 30⟩

/-- Twenty-nine valid daily rows: one short of the history threshold. -/
def data29 : FetchedData := ⟨true, rows_n 29⟩

/-- A single valid row: passes the no-valid-data gate, fails the
insufficient-history gate. -/
def data1 : FetchedData := ⟨true, [⟨0, some 1⟩]⟩

/-- A fit that always succeeds, predicting `yhat d = d`. -/
def fit_id : List FPoint → Except String (Nat → ℚ) :=
  fun _ => Except.ok (fun d => (d : ℚ))

/-- A fit that always raises, modelling a Prophet fitting error. -/
def fit_raise : List FPoint → Except String (Nat → ℚ) :=
  fun _ => Except.error "boom"

/-- The candidates returned by the successful run used as the witness for
the window property: today 29, travel date 32, `yhat d = d`. -/
def c1bd : List FPoint := [(32, 32), (31, 31), (30, 30)]

/-- The full forecast of that run: one point per day 0–32. -/
def c1fc : List FPoint := (List.range 33).map (fun d => ((d : Nat), (d : ℚ)))

/-- A cleaned series with 30 observations on days 0–28 and 30: day 29 is an
observation gap (as weekends are in real daily market data). -/
def c4df : List FPoint :=
  ((List.range 29).map (fun i => ((i : Nat), (1 : ℚ)))) ++ [(30, 1)]

/-- The date grid the forecast covers for that series with horizon 3. -/
def c4dates : List Nat := future_ds (c4df.map Prod.fst) 3

/-- Two rows on the same date with different rates, to exhibit which one
cleaning keeps. -/
def c10rows : List FetchRow := [⟨5, some 1⟩, ⟨5, some 2⟩]

/-! ### Helper lemmas about the cleaning stage -/

theorem fst_drop_duplicates_ds_not_seen :
    ∀ (l : List FPoint) (seen : List Nat) (d : Nat),
      d ∈ (drop_duplicates_ds seen l).map Prod.fst → d ∉ seen := by
  intro l
  induction l with
  | nil => intro seen d h; simp [drop_duplicates_ds] at h
  | cons q rest ih =>
    intro seen d h
    by_cases hq : q.1 ∈ seen
    · rw [drop_duplicates_ds, if_pos hq] at h
      exact ih seen d h
    · rw [drop_duplicates_ds, if_neg hq] at h
      rw [List.map_cons, List.mem_cons] at h
      rcases h with rfl | h
      · exact hq
      · intro hd
        exact ih (q.1 :: seen) d h (List.mem_cons_of_mem _ hd)

theorem nodup_fst_drop_duplicates_ds :
    ∀ (l : List FPoint) (seen : List Nat),
      ((drop_duplicates_ds seen l).map Prod.fst).Nodup := by
  intro l
  induction l with
  | nil => intro seen; simp [drop_duplicates_ds]
  | cons q rest ih =>
    intro seen
    by_cases hq : q.1 ∈ seen
    · rw [drop_duplicates_ds, if_pos hq]
      exact ih seen
    · rw [drop_duplicates_ds, if_neg hq, List.map_cons]
      refine List.nodup_cons.mpr ⟨?_, ih (q.1 :: seen)⟩
      intro hmem
      exact fst_drop_duplicates_ds_not_seen rest (q.1 :: seen) q.1 hmem
        (List.mem_cons_self _ _)

theorem drop_duplicates_ds_subset :
    ∀ (l : List FPoint) (seen : List Nat) (p : FPoint),
      p ∈ drop_duplicates_ds seen l → p ∈ l := by
  intro l
  induction l with
  | nil => intro seen p h; simp [drop_duplicates_ds] at h
  | cons q rest ih =>
    intro seen p h
    by_cases hq : q.1 ∈ seen
    · rw [drop_duplicates_ds, if_pos hq] at h
      exact List.mem_cons_of_mem _ (ih seen p h)
    · rw [drop_duplicates_ds, if_neg hq, List.mem_cons] at h
      rcases h with rfl | h
      · exact List.mem_cons_self _ _
      · exact List.mem_cons_of_mem _ (ih (q.1 :: seen) p h)

theorem mem_drop_duplicates_ds :
    ∀ (l : List FPoint) (seen : List Nat) (p : FPoint),
      p ∈ drop_duplicates_ds seen l ↔
        (p.1 ∉ seen ∧ l.find? (fun q => q.1 == p.1) = some p) := by
  intro l
  induction l with
  | nil => intro seen p; simp [drop_duplicates_ds]
  | cons q rest ih =>
    intro seen p
    by_cases hqp : q.1 = p.1
    · have hfind : List.find? (fun r : FPoint => r.1 == p.1) (q :: rest) = some q :=
        List.find?_cons_of_pos _ (by simp [hqp])
      rw [hfind]
      by_cases hq : q.1 ∈ seen
      · rw [drop_duplicates_ds, if_pos hq, ih]
        constructor
        · rintro ⟨hns, -⟩
          exact absurd (hqp ▸ hq) hns
        · rintro ⟨hns, -⟩
          exact absurd (hqp ▸ hq) hns
      · rw [drop_duplicates_ds, if_neg hq, List.mem_cons]
        constructor
        · rintro (rfl | hmem)
          · exact ⟨hqp ▸ hq, rfl⟩
          · rw [ih] at hmem
            obtain ⟨hns, -⟩ := hmem
            exact absurd (hqp ▸ List.mem_cons_self q.1 seen) hns
        · rintro ⟨-, hsome⟩
          exact Or.inl (Option.some_injective _ hsome).symm
    · have hfind : List.find? (fun r : FPoint => r.1 == p.1) (q :: rest) =
          List.find? (fun r : FPoint => r.1 == p.1) rest :=
        List.find?_cons_of_neg _ (by simp [hqp])
      rw [hfind]
      by_cases hq : q.1 ∈ seen
      · rw [drop_duplicates_ds, if_pos hq, ih]
      · rw [drop_duplicates_ds, if_neg hq, List.mem_cons, ih]
        constructor
        · rintro (rfl | ⟨hns, hfind⟩)
          · exact absurd rfl hqp
          · exact ⟨fun hmem => hns (List.mem_cons_of_mem _ hmem), hfind⟩
        · rintro ⟨hns, hfind⟩
          refine Or.inr ⟨?_, hfind⟩
          rw [List.mem_cons]
          rintro (h | h)
          · exact hqp h.symm
          · exact hns h

/-! ### Helper lemmas about the forecast date grid -/

theorem le_foldl_max (l : List Nat) : ∀ a : Nat, a ≤ l.foldl max a := by
  induction l with
  | nil => intro a; simp
  | cons x t ih => intro a; exact le_trans (le_max_left a x) (ih (max a x))

theorem mem_le_foldl_max (l : List Nat) :
    ∀ (a x : Nat), x ∈ l → x ≤ l.foldl max a := by
  induction l with
  | nil => intro a x hx; simp at hx
  | cons y t ih =>
    intro a x hx
    rcases List.mem_cons.mp hx with rfl | hx
    · exact le_trans (le_max_right a x) (le_foldl_max t (max a x))
    · exact ih (max a y) x hx

theorem mem_history_dates (ds : List Nat) (d : Nat) :
    d ∈ history_dates ds ↔ d ∈ ds := by
  unfold history_dates
  rw [List.mem_insertionSort, List.mem_dedup]

theorem nodup_history_dates (ds : List Nat) : (history_dates ds).Nodup := by
  unfold history_dates
  exact (List.perm_insertionSort _ _).nodup_iff.mpr (List.nodup_dedup ds)

theorem mem_le_hist_last (ds : List Nat) (d : Nat) (h : d ∈ history_dates ds) :
    d ≤ hist_last ds :=
  mem_le_foldl_max _ 0 d h

/-! ### Helper lemmas about the selection stage -/

theorem modelStage_success_take (fit : List FPoint → Except String (Nat → ℚ))
    (today : Nat) (df_prophet : List FPoint) (travel_date : Nat)
    (bd fc : List FPoint)
    (hb : (modelStage fit today df_prophet travel_date).best_days = some bd)
    (hf : (modelStage fit today df_prophet travel_date).second = Sum.inl fc) :
    bd = (sort_values_yhat_desc (fc.filter
      (fun p => decide (today < p.1) && decide (p.1 ≤ travel_date)))).take 3 := by
  unfold modelStage at hb hf
  cases hfit : fit df_prophet with
  | error e => rw [hfit] at hb; simp at hb
  | ok yhat =>
    rw [hfit] at hb hf
    cases hmk : make_future_dataframe (df_prophet.map Prod.fst)
        ((travel_date : Int) - (today : Int)) with
    | error e => rw [hmk] at hb; simp at hb
    | ok future =>
      rw [hmk] at hb hf
      by_cases hemp : ((future.map (fun d => (d, yhat d))).filter
          (fun p => decide (today < p.1) && decide (p.1 ≤ travel_date))).isEmpty
      · simp [hemp] at hb
      · simp only [hemp, Bool.false_eq_true, if_false] at hb hf
        rw [Option.some_inj] at hb
        rw [Sum.inl.injEq] at hf
        rw [← hb, ← hf]

theorem modelStage_shape (fit : List FPoint → Except String (Nat → ℚ))
    (today : Nat) (df_prophet : List FPoint) (travel_date : Nat) :
    (modelStage fit today df_prophet travel_date).best_days.isSome =
      (modelStage fit today df_prophet travel_date).second.isLeft ∧
    (modelStage fit today df_prophet travel_date).best_days.isSome =
      (modelStage fit today df_prophet travel_date).model.isSome := by
  unfold modelStage
  cases fit df_prophet with
  | error e => simp
  | ok yhat =>
    cases make_future_dataframe (df_prophet.map Prod.fst)
        ((travel_date : Int) - (today : Int)) with
    | error e => simp
    | ok future =>
      by_cases hemp : ((future.map (fun d => (d, yhat d))).filter
          (fun p => decide (today < p.1) && decide (p.1 ≤ travel_date))).isEmpty <;>
        simp [hemp]

theorem modelStage_travel_le (fit : List FPoint → Except String (Nat → ℚ))
    (today : Nat) (df_prophet : List FPoint) (travel_date : Nat)
    (h : travel_date ≤ today) :
    (modelStage fit today df_prophet travel_date).best_days = none ∧
    (modelStage fit today df_prophet travel_date).model = none := by
  unfold modelStage
  cases fit df_prophet with
  | error e => simp
  | ok yhat =>
    cases make_future_dataframe (df_prophet.map Prod.fst)
        ((travel_date : Int) - (today : Int)) with
    | error e => simp
    | ok future =>
      by_cases hemp : ((future.map (fun d => (d, yhat d))).filter
          (fun p => decide (today < p.1) && decide (p.1 ≤ travel_date))).isEmpty
      · simp [hemp]
      · exfalso
        rw [List.isEmpty_iff] at hemp
        obtain ⟨p, hp⟩ := List.exists_mem_of_ne_nil _ hemp
        have hw := (List.mem_filter.mp hp).2
        rw [Bool.and_eq_true, decide_eq_true_eq, decide_eq_true_eq] at hw
        omega

/-! ### Claim theorems -/

/-- C7: for every fetched series, the cleaned series handed to the model
has no duplicate dates, and every entry it carries comes from an actual
fetched row whose closing rate was present (equal date, equal rate) — so
no missing rates and no duplicate dates survive cleaning. -/
theorem cleaned_series_invariant (rows : List FetchRow) :
    ((clean_series rows).map Prod.fst).Nodup ∧
    (clean_series rows).all
      (fun p => rows.any (fun r => r.date == p.1 && r.close == some p.2)) = true := by
  constructor
  · exact nodup_fst_drop_duplicates_ds (dropna rows) []
  · rw [List.all_eq_true]
    intro p hp
    have hmem : p ∈ dropna rows :=
      drop_duplicates_ds_subset (dropna rows) [] p hp
    rw [dropna, List.mem_filterMap] at hmem
    obtain ⟨r, hr, hfr⟩ := hmem
    rw [Option.map_eq_some'] at hfr
    obtain ⟨y, hy, hpy⟩ := hfr
    rw [List.any_eq_true]
    refine ⟨r, hr, ?_⟩
    rw [Bool.and_eq_true, beq_iff_eq, beq_iff_eq]
    exact ⟨congrArg Prod.fst hpy, by rw [hy, ← congrArg Prod.snd hpy]⟩

/-- C10: cleaning keeps, for each date, exactly the first-occurring row among
those whose closing rate is present (`dropna` runs before
`drop_duplicates(keep='first')`): a pair belongs to the cleaned series iff
it is the first entry with its date in the missing-dropped list. -/
theorem dedup_keeps_first (rows : List FetchRow) (p : FPoint) :
    p ∈ clean_series rows ↔
      (dropna rows).find? (fun q => q.1 == p.1) = some p := by
  unfold clean_series
  rw [mem_drop_duplicates_ds]
  simp

/-- Witness for C10: on two rows sharing date 5 with rates 1 and 2, the
cleaned series contains `(5, 1)` — the first occurrence. -/
theorem dedup_keeps_first_witness :
    (((5 : Nat), (1 : ℚ)) ∈ clean_series c10rows ↔
      (dropna c10rows).find?
        (fun q => q.1 == ((5 : Nat), (1 : ℚ)).1) = some ((5 : Nat), (1 : ℚ))) ∧
    ((5 : Nat), (1 : ℚ)) ∈ clean_series c10rows ∧
    ¬ ((5 : Nat), (2 : ℚ)) ∈ clean_series c10rows :=
  ⟨dedup_keeps_first c10rows ((5 : Nat), (1 : ℚ)), by decide, by decide⟩

/-- C4 (amended): for a cleaned series with ≥ 30 observations and a
horizon `p ≥ 0`, the forecast date grid is duplicate-free and contains a
date `d` iff `d` is one of the historical dates or lies in the `p` days
strictly after the **last historical date** — not one point per calendar
day from the series start through today + horizon: the historical part
keeps whatever gaps the series had, and the future part is anchored at the
last historical date rather than at today. -/
theorem forecast_date_grid (df_prophet : List FPoint) (p : Nat) (d : Nat)
    (_h : 30 ≤ df_prophet.length) :
    (future_ds (df_prophet.map Prod.fst) (p : Int)).Nodup ∧
    (d ∈ future_ds (df_prophet.map Prod.fst) (p : Int) ↔
      (d ∈ df_prophet.map Prod.fst ∨
        (hist_last (df_prophet.map Prod.fst) < d ∧
          d ≤ hist_last (df_prophet.map Prod.fst) + p))) ∧
    make_future_dataframe (df_prophet.map Prod.fst) (p : Int) =
      Except.ok (future_ds (df_prophet.map Prod.fst) (p : Int)) := by
  refine ⟨?_, ?_, ?_⟩
  · unfold future_ds
    refine List.Nodup.append (nodup_history_dates _) ?_ ?_
    · refine List.Nodup.map ?_ (List.nodup_range _)
      intro a b hab
      dsimp only at hab
      omega
    · rw [List.disjoint_left]
      intro a ha hmem
      rw [List.mem_map] at hmem
      obtain ⟨i, -, hi⟩ := hmem
      have := mem_le_hist_last _ a ha
      omega
  · unfold future_ds
    rw [List.mem_append, List.mem_map, mem_history_dates]
    constructor
    · rintro (hd | ⟨i, hi, rfl⟩)
      · exact Or.inl hd
      · rw [List.mem_range, Int.toNat_ofNat] at hi
        exact Or.inr ⟨by omega, by omega⟩
    · rintro (hd | ⟨h1, h2⟩)
      · exact Or.inl hd
      · refine Or.inr ⟨d - hist_last (df_prophet.map Prod.fst) - 1, ?_, by omega⟩
        rw [List.mem_range, Int.toNat_ofNat]
        omega
  · unfold make_future_dataframe
    rw [if_neg (by omega)]

/-- Witness for C4 (amended): the grid characterization evaluated on the
gapped 30-point series `c4df` with horizon 3 at the missing day 29. -/
theorem forecast_date_grid_witness :
    30 ≤ c4df.length ∧
    ((future_ds (c4df.map Prod.fst) ((3 : Nat) : Int)).Nodup ∧
      ((29 : Nat) ∈ future_ds (c4df.map Prod.fst) ((3 : Nat) : Int) ↔
        ((29 : Nat) ∈ c4df.map Prod.fst ∨
          (hist_last (c4df.map Prod.fst) < 29 ∧
            29 ≤ hist_last (c4df.map Prod.fst) + 3))) ∧
      make_future_dataframe (c4df.map Prod.fst) ((3 : Nat) : Int) =
        Except.ok (future_ds (c4df.map Prod.fst) ((3 : Nat) : Int))) :=
  ⟨by decide, forecast_date_grid c4df 3 29 (by decide)⟩

/-- Counterexample to C4 as stated: the cleaned series `c4df` has 30
observations on days 0–28 and 30, today is day 30 (the last historical
date) and the horizon is 3 ≥ 0, so the claim demands exactly one forecast
point per calendar day 0–33; the produced grid does cover days 0 and 33
but has no point for day 29. -/
theorem forecast_gap_counterexample :
    30 ≤ c4df.length ∧
    make_future_dataframe (c4df.map Prod.fst) 3 = Except.ok c4dates ∧
    0 ∈ c4dates ∧ 33 ∈ c4dates ∧ (0 ≤ 29 ∧ 29 ≤ 33) ∧ 29 ∉ c4dates :=
  ⟨by decide, rfl, by decide, by decide, by decide, by decide⟩

/-- C1: whenever the pipeline succeeds (candidates and full forecast are
returned), every returned candidate's date lies strictly after today and at
or before the travel date (all dates at day granularity), and the number of
candidates is the minimum of 3 and the number of forecast points inside the
window — so at most 3, and fewer exactly when fewer points fall in the
window, which is still a success. -/
theorem candidate_window_bound (insufficient_msg : String)
    (fit : List FPoint → Except String (Nat → ℚ)) (today : Nat)
    (data : FetchedData) (travel_date : Nat) (bd fc : List FPoint)
    (hb : (get_prediction_core insufficient_msg fit today data travel_date).best_days =
      some bd)
    (hf : (get_prediction_core insufficient_msg fit today data travel_date).second =
      Sum.inl fc) :
    bd.length ≤ 3 ∧
    bd.length = min 3 ((fc.filter
      (fun p => decide (today < p.1) && decide (p.1 ≤ travel_date))).length) ∧
    bd.all (fun p => decide (today < p.1) && decide (p.1 ≤ travel_date)) = true := by
  unfold get_prediction_core at hb hf
  by_cases hnv : no_valid_data data = true
  · simp [hnv] at hb
  · simp only [hnv, Bool.false_eq_true, if_false] at hb hf
    by_cases hlen : (clean_series data.rows).length < 30
    · simp only [hlen, if_true] at hb
      simp at hb
    · simp only [hlen, if_false] at hb hf
      have hbd := modelStage_success_take fit today (clean_series data.rows)
        travel_date bd fc hb hf
      subst hbd
      refine ⟨?_, ?_, ?_⟩
      · rw [List.length_take]
        exact min_le_left _ _
      · rw [List.length_take, sort_values_yhat_desc, List.length_insertionSort]
      · rw [List.all_eq_true]
        intro p hp
        have hps := List.mem_of_mem_take hp
        rw [sort_values_yhat_desc, List.mem_insertionSort] at hps
        exact (List.mem_filter.mp hps).2

/-- Witness for C1: a successful run with 30 daily observations on days
0–29, today 29, travel date 32 and fitted prediction `yhat d = d`: the
three candidates are days 32, 31, 30. -/
theorem candidate_window_bound_witness :
    (get_prediction_core app_insufficient_msg fit_id 29 data30 32).best_days =
      some c1bd ∧
    (get_prediction_core app_insufficient_msg fit_id 29 data30 32).second =
      Sum.inl c1fc ∧
    (c1bd.length ≤ 3 ∧
      c1bd.length = min 3 ((c1fc.filter
        (fun p => decide (29 < p.1) && decide (p.1 ≤ 32))).length) ∧
      c1bd.all (fun p => decide (29 < p.1) && decide (p.1 ≤ 32)) = true) := by
  have h1 : (get_prediction_core app_insufficient_msg fit_id 29 data30 32).best_days =
      some c1bd := by decide
  have h2 : (get_prediction_core app_insufficient_msg fit_id 29 data30 32).second =
      Sum.inl c1fc := by decide
  exact ⟨h1, h2,
    candidate_window_bound app_insufficient_msg fit_id 29 data30 32 c1bd c1fc h1 h2⟩

/-- C3 (amended): when the travel date is not strictly after today the
pipeline never succeeds — it returns some Failure (empty-window, a
validation failure, or an unexpected error), there being no dedicated
"travel date not in the future" check anywhere in the code. -/
theorem travel_not_future_never_succeeds (insufficient_msg : String)
    (fit : List FPoint → Except String (Nat → ℚ)) (today : Nat)
    (data : FetchedData) (travel_date : Nat) (h : travel_date ≤ today) :
    (get_prediction_core insufficient_msg fit today data travel_date).best_days =
      none ∧
    (get_prediction_core insufficient_msg fit today data travel_date).model =
      none := by
  unfold get_prediction_core
  by_cases hnv : no_valid_data data = true
  · simp [hnv]
  · simp only [hnv, Bool.false_eq_true, if_false]
    by_cases hlen : (clean_series data.rows).length < 30
    · simp [hlen]
    · simp only [hlen, if_false]
      exact modelStage_travel_le fit today (clean_series data.rows) travel_date h

/-- Witness for C3 (amended): with valid data and travel date equal to
today (day 29), the pipeline fails. -/
theorem travel_not_future_never_succeeds_witness :
    (29 : Nat) ≤ 29 ∧
    ((get_prediction_core app_insufficient_msg fit_id 29 data30 29).best_days =
        none ∧
      (get_prediction_core app_insufficient_msg fit_id 29 data30 29).model =
        none) :=
  ⟨le_refl 29,
    travel_not_future_never_succeeds app_insufficient_msg fit_id 29 data30 29
      (le_refl 29)⟩

/-- Counterexample to C3 as stated: with 30 valid observations (days 0–29),
today 29 and travel date 29 (not strictly in the future), the pipeline
returns the empty-window failure "Could not generate a forecast for the
selected period.", not an InvalidRequest failure "travel date not in the
future" — no such reason exists in the code. -/
theorem travel_today_no_invalid_request :
    (app_get_prediction fit_id 29 data30 29).second =
      Sum.inr "Could not generate a forecast for the selected period." ∧
    ¬ (app_get_prediction fit_id 29 data30 29).second =
      Sum.inr "travel date not in the future" := by
  refine ⟨by decide, by decide⟩

/-- C5: once the first validation gate passes, the pipeline returns the
insufficient-history failure exactly when the cleaned series has fewer than
30 usable observations, and otherwise proceeds to the model-fitting stage. -/
theorem insufficient_history_boundary (insufficient_msg : String)
    (fit : List FPoint → Except String (Nat → ℚ)) (today : Nat)
    (data : FetchedData) (travel_date : Nat)
    (h1 : no_valid_data data = false) :
    get_prediction_core insufficient_msg fit today data travel_date =
      if (clean_series data.rows).length < 30 then
        ⟨none, Sum.inr insufficient_msg, none⟩
      else modelStage fit today (clean_series data.rows) travel_date := by
  simp [get_prediction_core, h1]

/-- Witness for C5: 29 valid rows pass the first gate, count as exactly 29
usable observations, and produce the insufficient-history failure branch. -/
theorem insufficient_history_boundary_witness :
    no_valid_data data29 = false ∧
    (clean_series data29.rows).length = 29 ∧
    get_prediction_core app_insufficient_msg fit_id 0 data29 5 =
      if (clean_series data29.rows).length < 30 then
        ⟨none, Sum.inr app_insufficient_msg, none⟩
      else modelStage fit_id 0 (clean_series data29.rows) 5 :=
  ⟨by decide, by decide,
    insufficient_history_boundary app_insufficient_msg fit_id 0 data29 5 (by decide)⟩

/-- C6: the pipeline call always returns exactly one of the two variants —
candidates, forecast and model are all present (success) or all absent
(failure, message in the middle slot) — and a model-fitting error `e` is
caught and returned as the failure "An unexpected error occurred: e"
rather than propagated.  (The embedding is a total function: no exception
reaches the caller.) -/
theorem result_variant_shape (insufficient_msg : String)
    (fit : List FPoint → Except String (Nat → ℚ)) (today : Nat)
    (data : FetchedData) (travel_date : Nat) (e : String) :
    ((get_prediction_core insufficient_msg fit today data travel_date).best_days.isSome =
        (get_prediction_core insufficient_msg fit today data travel_date).second.isLeft ∧
      (get_prediction_core insufficient_msg fit today data travel_date).best_days.isSome =
        (get_prediction_core insufficient_msg fit today data travel_date).model.isSome) ∧
    (no_valid_data data = false → 30 ≤ (clean_series data.rows).length →
      fit (clean_series data.rows) = Except.error e →
      get_prediction_core insufficient_msg fit today data travel_date =
        ⟨none, Sum.inr ("An unexpected error occurred: " ++ e), none⟩) := by
  constructor
  · unfold get_prediction_core
    by_cases hnv : no_valid_data data = true
    · simp [hnv]
    · simp only [hnv, Bool.false_eq_true, if_false]
      by_cases hlen : (clean_series data.rows).length < 30
      · simp [hlen]
      · simp only [hlen, if_false]
        exact modelStage_shape fit today (clean_series data.rows) travel_date
  · intro h1 h2 h3
    rw [get_prediction_core, h1]
    simp only [Bool.false_eq_true, if_false]
    rw [if_neg (by omega)]
    rw [modelStage, h3]

/-- Witness for C6: with 30 valid rows and a fit that raises "boom", the
result is the unexpected-error failure with the cause attached, and the
shape invariant holds at that input. -/
theorem result_variant_shape_witness :
    ((get_prediction_core app_insufficient_msg fit_raise 0 data30 40).best_days.isSome =
        (get_prediction_core app_insufficient_msg fit_raise 0 data30 40).second.isLeft ∧
      (get_prediction_core app_insufficient_msg fit_raise 0 data30 40).best_days.isSome =
        (get_prediction_core app_insufficient_msg fit_raise 0 data30 40).model.isSome) ∧
    (no_valid_data data30 = false ∧
      30 ≤ (clean_series data30.rows).length ∧
      fit_raise (clean_series data30.rows) = Except.error "boom" ∧
      get_prediction_core app_insufficient_msg fit_raise 0 data30 40 =
        ⟨none, Sum.inr ("An unexpected error occurred: " ++ "boom"), none⟩) := by
  have h := result_variant_shape app_insufficient_msg fit_raise 0 data30 40 "boom"
  exact ⟨h.1, by decide, by decide, rfl, h.2 (by decide) (by decide) rfl⟩

/-- C8: whenever the fetched frame is empty or every closing rate is
missing, the pipeline returns the no-valid-data failure — for every fit
function, so before any cleaning, fitting or selection happens. -/
theorem no_valid_data_failure (insufficient_msg : String)
    (fit : List FPoint → Except String (Nat → ℚ)) (today : Nat)
    (data : FetchedData) (travel_date : Nat)
    (h : data.rows = [] ∨ data.rows.all (fun r => r.close.isNone) = true) :
    get_prediction_core insufficient_msg fit today data travel_date =
      ⟨none, Sum.inr "Could not find valid data for this currency pair.", none⟩ := by
  have hnv : no_valid_data data = true := by
    unfold no_valid_data
    rcases h with h | h
    · simp [h]
    · simp [h]
  simp [get_prediction_core, hnv]

/-- Witness for C8: the empty fetched frame yields the no-valid-data
failure. -/
theorem no_valid_data_failure_witness :
    (FetchedData.mk true []).rows = [] ∧
    get_prediction_core app_insufficient_msg fit_id 0 ⟨true, []⟩ 5 =
      ⟨none, Sum.inr "Could not find valid data for this currency pair.", none⟩ :=
  ⟨rfl, no_valid_data_failure app_insufficient_msg fit_id 0 ⟨true, []⟩ 5 (Or.inl rfl)⟩

/-- C9 (amended): on every input the two pipeline implementations either
return identical results, or both return the insufficient-history failure
with their respective (different) wordings — the only divergence between
`app.py` and `backend.py`. -/
theorem pipelines_agree_except_message
    (fit : List FPoint → Except String (Nat → ℚ)) (today : Nat)
    (data : FetchedData) (travel_date : Nat) :
    app_get_prediction fit today data travel_date =
      backend_get_prediction fit today data travel_date ∨
    ((app_get_prediction fit today data travel_date).second =
        Sum.inr app_insufficient_msg ∧
      (backend_get_prediction fit today data travel_date).second =
        Sum.inr backend_insufficient_msg) := by
  unfold app_get_prediction backend_get_prediction get_prediction_core
  by_cases hnv : no_valid_data data = true
  · left; simp [hnv]
  · simp only [hnv, Bool.false_eq_true, if_false]
    by_cases hlen : (clean_series data.rows).length < 30
    · right; simp [hlen]
    · left; simp [hlen]

/-- Counterexample to C9 as stated: on a fetched frame with a single valid
row, both implementations fail for insufficient history but with different
diagnostic messages, so their results are not identical. -/
theorem pipelines_differ_counterexample :
    (app_get_prediction fit_id 0 data1 5).second =
      Sum.inr app_insufficient_msg ∧
    (backend_get_prediction fit_id 0 data1 5).second =
      Sum.inr backend_insufficient_msg ∧
    (app_get_prediction fit_id 0 data1 5).second ≠
      (backend_get_prediction fit_id 0 data1 5).second := by
  refine ⟨by decide, by decide, by decide⟩
